import Mathlib

/-! GKE cluster credential resolver (`pkg/gcp/gke.go`).

A shallow embedding of the three operations of `pkg/gcp/gke.go`
(`ListContainerClusters`, `GetContainerCluster`, `GetContainerClusterAuth`)
together with the part of Go's `encoding/base64` (`StdEncoding`) that
`GetContainerClusterAuth` calls, and theorems about them.

Conventions of the embedding:

* a Go `string` is a Lean `String`; where the code looks at the bytes of a string
  (base64 decoding) the UTF-8 bytes are used (`goBytes`), as in Go;
* a Go `[]byte` is a `List Nat` of values below 256;
* a Go pointer is an `Option`, `nil` being `none`; a Go `error` is an
  `Option GoError`, `nil` being `none`;
* a Go map is an association list with unique keys (`GoMap`);
* calls into external libraries (the GCP container client, client-go) are answered
  by an environment `Env`; every call an operation issues is recorded, in order,
  in the `calls` of its `Run`;
* a nil-pointer dereference in the code is the outcome `Outcome.panicked`.
-/

namespace Gke

/-! ## Go's `encoding/base64`, `StdEncoding` (padded, non-strict) -/

namespace Base64

/-- The alphabet of `StdEncoding` (`encodeStd` in `encoding/base64`). -/
def encodeStd : List Char :=
  "ABCDEFGHIJKLMNOPQRSTUVWXYZabcdefghijklmnopqrstuvwxyz0123456789+/".toList

/-- The padding character of `StdEncoding`, `'='`. -/
def padChar : Nat := 61

/-- Byte `enc.encode[i]` of the alphabet. -/
def encode (i : Nat) : Nat := (encodeStd.getD i 'A').toNat

/-- Table `enc.decodeMap`: the position of the byte in the alphabet, `0xff` for a
byte outside the alphabet. -/
def decodeMap (b : Nat) : Nat :=
  let i := (encodeStd.map Char.toNat).indexOf b
  if i < 64 then i else 0xff

/-- The bytes of a Go string: the UTF-8 encoding of its characters. -/
def goBytes (s : String) : List Nat :=
  s.data.flatMap (fun c => (String.utf8EncodeChar c).map UInt8.toNat)

/-- How the character loop of `decodeQuantum` ends: with an early `return si, 0, err`
(`ret`), or by leaving the loop with `dlen` and the pending error (`brk`). In both
`rest` is the unread input `src[si:]`. -/
inductive Gathered where
  | ret (rest : List Nat) (si : Nat) (err : Option Int)
  | brk (rest : List Nat) (si : Nat) (dbuf : List Nat) (dlen : Nat) (err : Option Int)
deriving DecidableEq, Repr

/-- The unread input a `Gathered` leaves. -/
def Gathered.rest : Gathered → List Nat
  | .ret rest _ _ => rest
  | .brk rest _ _ _ _ => rest

/-- The loop `for si < len(src) && (src[si] == '\n' || src[si] == '\r') { si++ }`. -/
def skipNewlines : List Nat → Nat → List Nat × Nat
  | [], si => ([], si)
  | c :: rest, si => if c = 10 ∨ c = 13 then skipNewlines rest (si + 1) else (c :: rest, si)

/-- What `decodeQuantum` does once it has read a padding character at position
`j ∈ {2, 3}` of the quantum (`rest`, `si` are the input after that character). -/
def afterPadding (srcLen : Nat) (rest : List Nat) (si : Nat) (j : Nat) (dbuf : List Nat) :
    Gathered :=
  if j = 2 then
    -- "==" is expected, the first "=" is already consumed; skip over newlines
    match skipNewlines rest si with
    | ([], si1) => .ret [] si1 (some (srcLen : Int))            -- not enough padding
    | (c :: rest1, si1) =>
      if c ≠ padChar then .ret (c :: rest1) si1 (some ((si1 : Int) - 1))  -- incorrect padding
      else
        match skipNewlines rest1 (si1 + 1) with
        | ([], si2) => .brk [] si2 dbuf j none
        | (d :: rest2, si2) => .brk (d :: rest2) si2 dbuf j (some (si2 : Int))  -- trailing garbage
  else
    match skipNewlines rest si with
    | ([], si2) => .brk [] si2 dbuf j none
    | (d :: rest2, si2) => .brk (d :: rest2) si2 dbuf j (some (si2 : Int))    -- trailing garbage

/-- The loop `for j := 0; j < len(dbuf); j++` of `decodeQuantum`, started at `j` with
the input `src[si:]`. `dbuf` holds the `j` six-bit values read so far. -/
def gather (srcLen : Nat) : List Nat → Nat → Nat → List Nat → Gathered
  | [], si, j, dbuf =>
    if 4 ≤ j then .brk [] si dbuf 4 none
    else if j = 0 then .ret [] si none
    else .ret [] si (some ((si : Int) - (j : Int)))   -- j == 1, or the encoding is padded
  | c :: rest, si, j, dbuf =>
    if 4 ≤ j then .brk (c :: rest) si dbuf 4 none
    else
      let out := decodeMap c
      if out ≠ 0xff then gather srcLen rest (si + 1) (j + 1) (dbuf ++ [out])
      else if c = 10 ∨ c = 13 then gather srcLen rest (si + 1) j dbuf
      else if c ≠ padChar then .ret rest (si + 1) (some (((si + 1 : Nat) : Int) - 1))
      else if j = 0 ∨ j = 1 then .ret rest (si + 1) (some (((si + 1 : Nat) : Int) - 1))
      else afterPadding srcLen rest (si + 1) j dbuf

/-- The tail of `decodeQuantum`: "convert 4x 6bit source bytes into 3 bytes" and keep
`dlen - 1` of them (`strict` is off for `StdEncoding`). -/
def convert (dbuf : List Nat) (dlen : Nat) : List Nat :=
  let val := dbuf.getD 0 0 <<< 18 ||| dbuf.getD 1 0 <<< 12 ||| dbuf.getD 2 0 <<< 6 ||| dbuf.getD 3 0
  let d2 := (val >>> 0) % 256
  let d1 := (val >>> 8) % 256
  let d0 := (val >>> 16) % 256
  match dlen with
  | 4 => [d0, d1, d2]
  | 3 => [d0, d1]
  | 2 => [d0]
  | _ => []

/-- Result of `decodeQuantum`: the new index `nsi` (with the unread input `rest`),
the bytes written to `dst`, and the error. -/
structure Quantum where
  rest : List Nat
  nsi : Nat
  out : List Nat
  err : Option Int
deriving DecidableEq, Repr

/-- Function `(*Encoding).decodeQuantum` for `StdEncoding`, on the input `src[si:]`. -/
def decodeQuantum (srcLen : Nat) (rest : List Nat) (si : Nat) : Quantum :=
  match gather srcLen rest si 0 [] with
  | .ret rest1 si1 err => ⟨rest1, si1, [], err⟩
  | .brk rest1 si1 dbuf dlen err => ⟨rest1, si1, convert dbuf dlen, err⟩

/-- The loop `for si < len(src) { si, ninc, err = enc.decodeQuantum(dst[n:], src, si); ... }`
of `(*Encoding).Decode`. The 8- and 4-byte fast paths of `Decode` decode the same
quanta and are not modelled apart. `fuel` bounds the number of quanta; a quantum
consumes at least one byte, so `fuel = len(src)` never runs out
(`decodeLoop_fuel`). -/
def decodeLoop (srcLen : Nat) : Nat → List Nat → Nat → List Nat → List Nat × Option Int
  | 0, _, _, acc => (acc, none)
  | fuel + 1, rest, si, acc =>
    if rest = [] then (acc, none)
    else
      let q := decodeQuantum srcLen rest si
      if q.err ≠ none then (acc ++ q.out, q.err)
      else decodeLoop srcLen fuel q.rest q.nsi (acc ++ q.out)

/-- Function `(*Encoding).Decode` for `StdEncoding`: the decoded bytes `dst[:n]` and
the offset of the `CorruptInputError`, if any. -/
def Decode (src : List Nat) : List Nat × Option Int :=
  if src.length = 0 then ([], none)
  else decodeLoop src.length src.length src 0 []

/-- Function `(*Encoding).DecodeString` for `StdEncoding`. -/
def DecodeString (s : String) : List Nat × Option Int :=
  Decode (goBytes s)

/-- Function `(*Encoding).Encode` for `StdEncoding`: three bytes become four
characters of the alphabet, a remainder of one or two bytes is padded with `=`. -/
def Encode : List Nat → List Nat
  | [] => []
  | [a] =>
    let val := a <<< 16
    [encode (val >>> 18 &&& 0x3F), encode (val >>> 12 &&& 0x3F), padChar, padChar]
  | [a, b] =>
    let val := a <<< 16 ||| b <<< 8
    [encode (val >>> 18 &&& 0x3F), encode (val >>> 12 &&& 0x3F), encode (val >>> 6 &&& 0x3F),
      padChar]
  | a :: b :: c :: rest =>
    let val := a <<< 16 ||| b <<< 8 ||| c
    [encode (val >>> 18 &&& 0x3F), encode (val >>> 12 &&& 0x3F), encode (val >>> 6 &&& 0x3F),
      encode (val &&& 0x3F)] ++ Encode rest

/-- Function `(*Encoding).EncodeToString` for `StdEncoding`. -/
def EncodeToString (b : List Nat) : String :=
  String.mk ((Encode b).map Char.ofNat)

end Base64

/-! ## Go values -/

/-- A Go `error` value. `external` is an error made by a library this file calls
(only its `Error()` text is ever read here), `corruptInput` is
`base64.CorruptInputError`, `errorString` is what `fmt.Errorf` returns for a format
without `%w`, and `wrapError` what it returns for a format with `%w`. -/
inductive GoError where
  | external (msg : String)
  | corruptInput (offset : Int)
  | errorString (msg : String)
  | wrapError (msg : String) (err : GoError)
deriving DecidableEq, Repr

/-- Method `Error()`. For `CorruptInputError` it is
`"illegal base64 data at input byte " + strconv.FormatInt(int64(e), 10)`. -/
def GoError.Error : GoError → String
  | .external msg => msg
  | .corruptInput offset => "illegal base64 data at input byte " ++ toString offset
  | .errorString msg => msg
  | .wrapError msg _ => msg

/-- Method `Unwrap()` as seen by `errors.Unwrap`. -/
def GoError.Unwrap : GoError → Option GoError
  | .wrapError _ err => some err
  | _ => none

/-- A Go `map[string]V`: its entries, with pairwise different keys. -/
structure GoMap (V : Type) where
  entries : List (String × V)
deriving DecidableEq, Repr

/-- The empty map literal `map[string]V{}`. -/
def GoMap.empty {V : Type} : GoMap V := ⟨[]⟩

/-- Assignment `m[k] = v`: replaces the entry of `k` if there is one, adds one if not. -/
def GoMap.set {V : Type} (m : GoMap V) (k : String) (v : V) : GoMap V :=
  if m.entries.any (fun e => e.1 == k) then
    ⟨m.entries.map (fun e => if e.1 == k then (k, v) else e)⟩
  else ⟨m.entries ++ [(k, v)]⟩

/-- Lookup `m[k]`. -/
def GoMap.get? {V : Type} (m : GoMap V) (k : String) : Option V :=
  (m.entries.find? (fun e => e.1 == k)).map (fun e => e.2)

/-- Builtin `len(m)`. -/
def GoMap.len {V : Type} (m : GoMap V) : Nat := m.entries.length

/-- The keys a `for k := range m` visits. Go leaves the order unspecified; it plays no
role for a map with at most one entry. -/
def GoMap.keys {V : Type} (m : GoMap V) : List String := m.entries.map (fun e => e.1)

/-- A `context.Context`; this file only passes it on. -/
structure GoContext where
  ref : Nat
deriving DecidableEq, Repr

/-! ## Types of the libraries (the fields this file reads or writes) -/

namespace containerpb

/-- Message `containerpb.MasterAuth`. -/
structure MasterAuth where
  ClusterCaCertificate : String
deriving DecidableEq, Repr

/-- Message `containerpb.Cluster`; `MasterAuth` is a pointer to a sub-message. -/
structure Cluster where
  Name : String
  Location : String
  Endpoint : String
  MasterAuth : Option MasterAuth
deriving DecidableEq, Repr

/-- Message `containerpb.ListClustersResponse`. -/
structure ListClustersResponse where
  Clusters : List Cluster
  MissingZones : List String
deriving DecidableEq, Repr

/-- Message `containerpb.ListClustersRequest`. -/
structure ListClustersRequest where
  Parent : String
deriving DecidableEq, Repr

/-- Message `containerpb.GetClusterRequest`. -/
structure GetClusterRequest where
  Name : String
deriving DecidableEq, Repr

end containerpb

namespace api

/-- Type `api.Cluster` of `k8s.io/client-go/tools/clientcmd/api`. -/
structure Cluster where
  Server : String := ""
  CertificateAuthority : String := ""
  CertificateAuthorityData : List Nat := []
deriving DecidableEq, Repr

/-- Type `api.Context`. -/
structure Context where
  Cluster : String := ""
  AuthInfo : String := ""
  Namespace : String := ""
deriving DecidableEq, Repr

/-- Type `api.AuthProviderConfig`. -/
structure AuthProviderConfig where
  Name : String := ""
  Config : GoMap String := GoMap.empty
deriving DecidableEq, Repr

/-- Type `api.AuthInfo`: the static credentials it can carry and the auth provider.
A field left out of a composite literal has its zero value. -/
structure AuthInfo where
  ClientCertificate : String := ""
  ClientCertificateData : List Nat := []
  ClientKey : String := ""
  ClientKeyData : List Nat := []
  Token : String := ""
  TokenFile : String := ""
  Username : String := ""
  Password : String := ""
  AuthProvider : Option AuthProviderConfig := none
deriving DecidableEq, Repr

/-- Type `api.Config`. -/
structure Config where
  Kind : String := ""
  APIVersion : String := ""
  Clusters : GoMap Cluster := GoMap.empty
  AuthInfos : GoMap AuthInfo := GoMap.empty
  Contexts : GoMap Context := GoMap.empty
  CurrentContext : String := ""
deriving DecidableEq, Repr

end api

namespace clientcmd

/-- Type `clientcmd.ConfigOverrides` (the field this file sets). -/
structure ConfigOverrides where
  CurrentContext : String := ""
deriving DecidableEq, Repr

end clientcmd

namespace rest

/-- A `rest.Config` built by client-go; this file only passes it on. -/
structure Config where
  ref : Nat
deriving DecidableEq, Repr

end rest

namespace kubernetes

/-- A `kubernetes.Clientset` built by client-go; this file only passes it on. -/
structure Clientset where
  ref : Nat
deriving DecidableEq, Repr

end kubernetes

namespace k8s

/-- Modelled from the spec: the struct `k8s.KubernetesClient` of `pkg/k8s` is not in
this file; the "Resolved Client Handle" of the spec "pairs a connected API client
with its transport/REST configuration", and `GetContainerClusterAuth` fills its two
fields `Clientset` and `RestConfig`. -/
structure KubernetesClient where
  Clientset : Option kubernetes.Clientset
  RestConfig : Option rest.Config
deriving DecidableEq, Repr

end k8s

/-- Modelled from the spec: the struct `GCPConfiguration` of `pkg/gcp` is declared
outside this file; the spec names its content as the "ambient configuration of
{project, region, authenticated-context}", and the methods read `conf.Context`,
`conf.Project` and `conf.Region`. -/
structure GCPConfiguration where
  Context : GoContext
  Project : String
  Region : String
deriving DecidableEq, Repr

/-! ## The environment and the record of calls -/

/-- A call this file makes into a library, with its arguments. `Printf` is
`fmt.Printf`. `ClientConfig` is
`clientcmd.NewNonInteractiveClientConfig(config, context, overrides, nil).ClientConfig()`. -/
inductive Call where
  | NewClusterManagerClient (ctx : GoContext)
  | ListClusters (ctx : GoContext) (req : containerpb.ListClustersRequest)
  | GetCluster (ctx : GoContext) (req : containerpb.GetClusterRequest)
  | ClientConfig (config : api.Config) (context : String) (overrides : clientcmd.ConfigOverrides)
  | NewForConfig (c : Option rest.Config)
  | Printf (text : String)
deriving DecidableEq, Repr

/-- A `*container.ClusterManagerClient`: what its two methods answer. -/
structure ClusterManagerClient where
  ListClusters : GoContext → containerpb.ListClustersRequest →
    Option containerpb.ListClustersResponse × Option GoError
  GetCluster : GoContext → containerpb.GetClusterRequest →
    Option containerpb.Cluster × Option GoError

/-- What the libraries answer: `container.NewClusterManagerClient`, the client
configuration built by `clientcmd`, and `kubernetes.NewForConfig`. The calls are
taken to return. -/
structure Env where
  NewClusterManagerClient : GoContext → Option ClusterManagerClient × Option GoError
  ClientConfig : api.Config → String → clientcmd.ConfigOverrides →
    Option rest.Config × Option GoError
  NewForConfig : Option rest.Config → Option kubernetes.Clientset × Option GoError

/-- How a Go function ends: it returns, or it panics (here always the runtime error
"invalid memory address or nil pointer dereference"). -/
inductive Outcome (α : Type) where
  | returned (a : α)
  | panicked
deriving DecidableEq, Repr

/-- One execution of an operation: the library calls it made, in order, and how it
ended. -/
structure Run (α : Type) where
  calls : List Call
  outcome : Outcome α
deriving DecidableEq, Repr

/-! ## `pkg/gcp/gke.go` -/

/-- Method `(*GCPConfiguration).ListContainerClusters` (lines 23-37). A method
called on a nil client dereferences it. -/
def ListContainerClusters (env : Env) (conf : GCPConfiguration) :
    Run (Option containerpb.ListClustersResponse × Option GoError) :=
  let calls := [Call.NewClusterManagerClient conf.Context]
  match env.NewClusterManagerClient conf.Context with
  | (_, some err) =>
    ⟨calls, .returned (none,
      some (.errorString ("could not create google container client: " ++ err.Error)))⟩
  | (none, none) => ⟨calls, .panicked⟩
  | (some client, none) =>
    let req : containerpb.ListClustersRequest :=
      { Parent := "projects/" ++ conf.Project ++ "/locations/-" }
    let calls := calls ++ [Call.ListClusters conf.Context req]
    match client.ListClusters conf.Context req with
    | (_, some err) =>
      ⟨calls, .returned (none,
        some (.errorString ("error listing container clusters: " ++ err.Error)))⟩
    | (clusters, none) => ⟨calls, .returned (clusters, none)⟩

/-- Method `(*GCPConfiguration).GetContainerCluster` (lines 40-54). -/
def GetContainerCluster (env : Env) (conf : GCPConfiguration) (clusterName : String) :
    Run (Option containerpb.Cluster × Option GoError) :=
  let calls := [Call.NewClusterManagerClient conf.Context]
  match env.NewClusterManagerClient conf.Context with
  | (_, some err) =>
    ⟨calls, .returned (none,
      some (.errorString ("could not create google container client: " ++ err.Error)))⟩
  | (none, none) => ⟨calls, .panicked⟩
  | (some client, none) =>
    let req : containerpb.GetClusterRequest :=
      { Name := "projects/" ++ conf.Project ++ "/locations/" ++ conf.Region ++ "/clusters/"
          ++ clusterName }
    let calls := calls ++ [Call.GetCluster conf.Context req]
    match client.GetCluster conf.Context req with
    | (_, some err) =>
      ⟨calls, .returned (none,
        some (.errorString ("error getting container cluster: " ++ err.Error)))⟩
    | (cluster, none) => ⟨calls, .returned (cluster, none)⟩

/-- Lines 70-98 of `GetContainerClusterAuth`: from the fetched `cluster`, the
synthesized `config`, or the error returned at line 81, or the panic of the read
`cluster.MasterAuth.ClusterCaCertificate` through a nil `MasterAuth`. -/
def synthesize (conf : GCPConfiguration) (cluster : containerpb.Cluster) :
    Outcome (Except GoError api.Config) :=
  let config : api.Config :=
    { APIVersion := "v1"
      Kind := "Config"
      Clusters := GoMap.empty
      AuthInfos := GoMap.empty
      Contexts := GoMap.empty }
  let name := "gke_" ++ conf.Project ++ "_" ++ cluster.Location ++ "_" ++ cluster.Name
  match cluster.MasterAuth with
  | none => .panicked
  | some masterAuth =>
    match Base64.DecodeString masterAuth.ClusterCaCertificate with
    | (_, some offset) =>
      let err := GoError.corruptInput offset
      .returned (.error (.wrapError
        ("invalid certificate cluster=" ++ name ++ " cert=" ++ masterAuth.ClusterCaCertificate
          ++ ": " ++ err.Error) err))
    | (cert, none) =>
      let config := { config with
        Clusters := config.Clusters.set name
          { CertificateAuthorityData := cert
            Server := "https://" ++ cluster.Endpoint } }
      let config := { config with
        Contexts := config.Contexts.set name
          { Cluster := name
            AuthInfo := name } }
      let config := { config with
        AuthInfos := config.AuthInfos.set name
          { AuthProvider := some
              { Name := "gcp"
                Config := GoMap.empty.set "scopes"
                  "https://www.googleapis.com/auth/cloud-platform" } } }
      .returned (.ok config)

/-- The variables `kubeConfig`, `clientset` and `err` of `GetContainerClusterAuth`. -/
structure Locals where
  kubeConfig : Option rest.Config
  clientset : Option kubernetes.Clientset
  err : Option GoError
deriving DecidableEq, Repr

/-- Body of the loop `for clusterName := range config.Clusters` (lines 104-112): both
failures are printed and the loop goes on. -/
def loopBody (env : Env) (config : api.Config) (st : List Call × Locals)
    (clusterName : String) : List Call × Locals :=
  let overrides : clientcmd.ConfigOverrides := { CurrentContext := clusterName }
  let calls := st.1 ++ [Call.ClientConfig config clusterName overrides]
  let (kubeConfig, err) := env.ClientConfig config clusterName overrides
  let calls :=
    match err with
    | some e => calls ++ [Call.Printf ("error building kubernetes config: " ++ e.Error)]
    | none => calls
  let calls := calls ++ [Call.NewForConfig kubeConfig]
  let (clientset, err) := env.NewForConfig kubeConfig
  let calls :=
    match err with
    | some e => calls ++ [Call.Printf ("error buildling kubernetes clientset: " ++ e.Error)]
    | none => calls
  (calls, ⟨kubeConfig, clientset, err⟩)

/-- Lines 70-118 of `GetContainerClusterAuth`: what it does with the fetched `cluster`,
`calls` being the calls made before. -/
def materialize (env : Env) (conf : GCPConfiguration) (cluster : containerpb.Cluster)
    (calls : List Call) : Run (Option k8s.KubernetesClient × Option GoError) :=
  match synthesize conf cluster with
  | .panicked => ⟨calls, .panicked⟩
  | .returned (.error err) => ⟨calls, .returned (none, some err)⟩
  | .returned (.ok config) =>
    let st := config.Clusters.keys.foldl (loopBody env config) (calls, ⟨none, none, none⟩)
    ⟨st.1, .returned (some { Clientset := st.2.clientset, RestConfig := st.2.kubeConfig }, none)⟩

/-- Method `(*GCPConfiguration).GetContainerClusterAuth` (lines 57-119). Reading
`cluster.Location` through a nil `cluster` panics. -/
def GetContainerClusterAuth (env : Env) (conf : GCPConfiguration) (clusterName : String) :
    Run (Option k8s.KubernetesClient × Option GoError) :=
  let calls := [Call.NewClusterManagerClient conf.Context]
  match env.NewClusterManagerClient conf.Context with
  | (_, some err) =>
    ⟨calls, .returned (none,
      some (.errorString ("could not create google container client: " ++ err.Error)))⟩
  | (none, none) => ⟨calls, .panicked⟩
  | (some client, none) =>
    let req : containerpb.GetClusterRequest :=
      { Name := "projects/" ++ conf.Project ++ "/locations/" ++ conf.Region ++ "/clusters/"
          ++ clusterName }
    let calls := calls ++ [Call.GetCluster conf.Context req]
    match client.GetCluster conf.Context req with
    | (_, some err) =>
      ⟨calls, .returned (none,
        some (.errorString ("error getting container cluster: " ++ err.Error)))⟩
    | (none, none) => ⟨calls, .panicked⟩
    | (some cluster, none) => materialize env conf cluster calls

/-! ## What a run shows of the requests and of the synthesized configuration -/

/-- Resource names of the `GetCluster` requests among `calls`. -/
def clusterRequests (calls : List Call) : List String :=
  calls.filterMap (fun c => match c with
    | .GetCluster _ req => some req.Name
    | _ => none)

/-- Parents of the `ListClusters` requests among `calls`. -/
def listRequests (calls : List Call) : List String :=
  calls.filterMap (fun c => match c with
    | .ListClusters _ req => some req.Parent
    | _ => none)

/-- The configurations handed to `clientcmd` among `calls`: the state of `config`
when client construction starts. -/
def configsBuilt (calls : List Call) : List api.Config :=
  calls.filterMap (fun c => match c with
    | .ClientConfig config _ _ => some config
    | _ => none)

/-- The `Server` of every cluster entry of every configuration built. -/
def serversBuilt (calls : List Call) : List String :=
  (configsBuilt calls).flatMap (fun config => config.Clusters.entries.map (fun e => e.2.Server))

/-- The `CertificateAuthorityData` of every cluster entry of every configuration built. -/
def certsBuilt (calls : List Call) : List (List Nat) :=
  (configsBuilt calls).flatMap
    (fun config => config.Clusters.entries.map (fun e => e.2.CertificateAuthorityData))

/-- The auth-info entries of every configuration built. -/
def authInfosBuilt (calls : List Call) : List api.AuthInfo :=
  (configsBuilt calls).flatMap (fun config => config.AuthInfos.entries.map (fun e => e.2))

/-- The context name and the `CurrentContext` override handed to `clientcmd` among
`calls`. -/
def contextsUsed (calls : List Call) : List (String × String) :=
  calls.filterMap (fun c => match c with
    | .ClientConfig _ context overrides => some (context, overrides.CurrentContext)
    | _ => none)

/-- Number of calls into client-go (`ClientConfig`, `NewForConfig`) among `calls`. -/
def clientConstructions (calls : List Call) : Nat :=
  calls.countP (fun c => match c with
    | .ClientConfig _ _ _ => true
    | .NewForConfig _ => true
    | _ => false)

/-- Go's `strings.HasPrefix(s, p)`. -/
def beginsWith (s p : String) : Prop := p.data <+: s.data

instance (s p : String) : Decidable (beginsWith s p) := by
  unfold beginsWith; infer_instance

/-! ## Fakes of the libraries, for concrete runs -/

/-- A client whose methods answer every request with the given results. -/
def fakeClient (list : Option containerpb.ListClustersResponse × Option GoError)
    (get : Option containerpb.Cluster × Option GoError) : ClusterManagerClient :=
  ⟨fun _ _ => list, fun _ _ => get⟩

/-- An environment whose libraries answer every call with the given results. -/
def fakeEnv (client : Option ClusterManagerClient × Option GoError)
    (clientConfig : Option rest.Config × Option GoError)
    (newForConfig : Option kubernetes.Clientset × Option GoError) : Env :=
  ⟨fun _ => client, fun _ _ _ => clientConfig, fun _ => newForConfig⟩

/-- A configuration for project `acme` and the given region. -/
def acme (region : String) : GCPConfiguration :=
  { Context := ⟨0⟩, Project := "acme", Region := region }

/-- The descriptor of cluster `prod` in `us-central1`. -/
def prod (endpoint : String) (masterAuth : Option containerpb.MasterAuth) : containerpb.Cluster :=
  { Name := "prod", Location := "us-central1", Endpoint := endpoint, MasterAuth := masterAuth }

/-- An environment in which the provider returns `cluster` and client-go builds a
REST configuration and a clientset. -/
def healthyEnv (cluster : containerpb.Cluster) : Env :=
  fakeEnv (some (fakeClient (some ⟨[cluster], []⟩, none) (some cluster, none)), none)
    (some ⟨1⟩, none) (some ⟨2⟩, none)

/-- An environment in which the provider returns `cluster` and client-go builds the
REST configuration but fails to build the clientset. -/
def brokenTransportEnv (cluster : containerpb.Cluster) : Env :=
  fakeEnv (some (fakeClient (some ⟨[cluster], []⟩, none) (some cluster, none)), none)
    (some ⟨1⟩, none)
    (none, some (.external "unable to load root certificates: unable to parse bytes as PEM block"))

namespace Base64

theorem or_shift (x y k : Nat) (h : y < 2 ^ k) : x <<< k ||| y = x * 2 ^ k + y := by
  rw [Nat.shiftLeft_eq, Nat.mul_comm, ← Nat.mul_add_lt_is_or h]

theorem and_63 (x : Nat) : x &&& 0x3F = x % 64 :=
  Nat.and_pow_two_sub_one_eq_mod x 6

theorem val3 (a b c : Nat) (hb : b < 256) (hc : c < 256) :
    a <<< 16 ||| b <<< 8 ||| c = a * 65536 + b * 256 + c := by
  rw [Nat.or_assoc, or_shift b c 8 (by omega), or_shift a _ 16 (by omega)]
  omega

theorem val4 (s0 s1 s2 s3 : Nat) (h1 : s1 < 64) (h2 : s2 < 64) (h3 : s3 < 64) :
    s0 <<< 18 ||| s1 <<< 12 ||| s2 <<< 6 ||| s3 = s0 * 262144 + s1 * 4096 + s2 * 64 + s3 := by
  rw [Nat.or_assoc, Nat.or_assoc, or_shift s2 s3 6 (by omega), or_shift s1 _ 12 (by omega),
    or_shift s0 _ 18 (by omega)]
  omega

theorem decodeMap_encode : ∀ i, i < 64 → decodeMap (encode i) = i := by decide

theorem encode_lt : ∀ i, i < 64 → encode i < 128 := by decide

theorem utf8_ascii :
    ∀ x, x < 128 → (String.utf8EncodeChar (Char.ofNat x)).map UInt8.toNat = [x] := by decide

theorem gather_valid (srcLen : Nat) (rest : List Nat) (si j : Nat) (dbuf : List Nat) (i : Nat)
    (hj : j < 4) (hi : i < 64) :
    gather srcLen (encode i :: rest) si j dbuf = gather srcLen rest (si + 1) (j + 1) (dbuf ++ [i]) := by
  have h1 : ¬ 4 ≤ j := by omega
  have h2 : i ≠ 255 := by omega
  simp [gather, decodeMap_encode i hi, h1, h2]

theorem gather_four (srcLen : Nat) (rest : List Nat) (si : Nat) (dbuf : List Nat) :
    gather srcLen rest si 4 dbuf = .brk rest si dbuf 4 none := by
  cases rest <;> simp [gather]

theorem gather_pad2 (srcLen : Nat) (si : Nat) (dbuf : List Nat) :
    gather srcLen [padChar, padChar] si 2 dbuf = .brk [] (si + 2) dbuf 2 none := by
  have h : decodeMap 61 = 255 := by decide
  simp [gather, afterPadding, skipNewlines, h, padChar]

theorem gather_pad3 (srcLen : Nat) (si : Nat) (dbuf : List Nat) :
    gather srcLen [padChar] si 3 dbuf = .brk [] (si + 1) dbuf 3 none := by
  have h : decodeMap 61 = 255 := by decide
  simp [gather, afterPadding, skipNewlines, h, padChar]

theorem convert_four (a b c : Nat) (ha : a < 256) (hb : b < 256) (hc : c < 256) :
    convert [(a <<< 16 ||| b <<< 8 ||| c) >>> 18 &&& 0x3F, (a <<< 16 ||| b <<< 8 ||| c) >>> 12 &&& 0x3F,
      (a <<< 16 ||| b <<< 8 ||| c) >>> 6 &&& 0x3F, (a <<< 16 ||| b <<< 8 ||| c) &&& 0x3F] 4
      = [a, b, c] := by
  simp only [convert, List.getD_cons_zero, List.getD_cons_succ, and_63, val3 a b c hb hc,
    Nat.shiftRight_eq_div_pow]
  rw [val4 _ _ _ _ (Nat.mod_lt _ (by omega)) (Nat.mod_lt _ (by omega)) (Nat.mod_lt _ (by omega))]
  simp only [List.cons.injEq, and_true]
  refine ⟨?_, ?_, ?_⟩ <;> omega

theorem convert_three (a b : Nat) (ha : a < 256) (hb : b < 256) :
    convert [(a <<< 16 ||| b <<< 8) >>> 18 &&& 0x3F, (a <<< 16 ||| b <<< 8) >>> 12 &&& 0x3F,
      (a <<< 16 ||| b <<< 8) >>> 6 &&& 0x3F] 3 = [a, b] := by
  have h : a <<< 16 ||| b <<< 8 = a * 65536 + b * 256 := by
    rw [Nat.shiftLeft_eq b 8, or_shift a _ 16 (by omega)]
    omega
  simp only [convert, List.getD_cons_zero, List.getD_cons_succ, List.getD_nil, and_63, h,
    Nat.shiftRight_eq_div_pow]
  rw [val4 _ _ _ _ (Nat.mod_lt _ (by omega)) (Nat.mod_lt _ (by omega)) (by omega)]
  simp only [List.cons.injEq, and_true]
  refine ⟨?_, ?_⟩ <;> omega

theorem convert_two (a : Nat) (ha : a < 256) :
    convert [(a <<< 16) >>> 18 &&& 0x3F, (a <<< 16) >>> 12 &&& 0x3F] 2 = [a] := by
  simp only [convert, List.getD_cons_zero, List.getD_cons_succ, List.getD_nil, and_63,
    Nat.shiftLeft_eq, Nat.shiftRight_eq_div_pow]
  have h := val4 (a * 2 ^ 16 / 2 ^ 18 % 64) (a * 2 ^ 16 / 2 ^ 12 % 64) 0 0
    (Nat.mod_lt _ (by omega)) (by omega) (by omega)
  simp only [Nat.shiftLeft_eq, Nat.zero_mul] at h
  rw [h]
  simp only [List.cons.injEq, and_true]
  omega

theorem and_63_lt (x : Nat) : x &&& 0x3F < 64 := by
  rw [and_63]; omega

theorem decodeQuantum_four (srcLen si a b c : Nat) (tail : List Nat)
    (ha : a < 256) (hb : b < 256) (hc : c < 256) :
    decodeQuantum srcLen
      (encode ((a <<< 16 ||| b <<< 8 ||| c) >>> 18 &&& 0x3F)
        :: encode ((a <<< 16 ||| b <<< 8 ||| c) >>> 12 &&& 0x3F)
        :: encode ((a <<< 16 ||| b <<< 8 ||| c) >>> 6 &&& 0x3F)
        :: encode ((a <<< 16 ||| b <<< 8 ||| c) &&& 0x3F) :: tail) si
      = ⟨tail, si + 4, [a, b, c], none⟩ := by
  unfold decodeQuantum
  rw [gather_valid _ _ _ _ _ _ (by omega) (and_63_lt _),
    gather_valid _ _ _ _ _ _ (by omega) (and_63_lt _),
    gather_valid _ _ _ _ _ _ (by omega) (and_63_lt _),
    gather_valid _ _ _ _ _ _ (by omega) (and_63_lt _), gather_four]
  simp only [List.nil_append, List.cons_append, convert_four a b c ha hb hc]

theorem decodeQuantum_three (srcLen si a b : Nat) (ha : a < 256) (hb : b < 256) :
    decodeQuantum srcLen
      [encode ((a <<< 16 ||| b <<< 8) >>> 18 &&& 0x3F),
        encode ((a <<< 16 ||| b <<< 8) >>> 12 &&& 0x3F),
        encode ((a <<< 16 ||| b <<< 8) >>> 6 &&& 0x3F), padChar] si
      = ⟨[], si + 4, [a, b], none⟩ := by
  unfold decodeQuantum
  rw [gather_valid _ _ _ _ _ _ (by omega) (and_63_lt _),
    gather_valid _ _ _ _ _ _ (by omega) (and_63_lt _),
    gather_valid _ _ _ _ _ _ (by omega) (and_63_lt _), gather_pad3]
  simp only [List.nil_append, List.cons_append, convert_three a b ha hb]

theorem decodeQuantum_two (srcLen si a : Nat) (ha : a < 256) :
    decodeQuantum srcLen
      [encode ((a <<< 16) >>> 18 &&& 0x3F), encode ((a <<< 16) >>> 12 &&& 0x3F),
        padChar, padChar] si
      = ⟨[], si + 4, [a], none⟩ := by
  unfold decodeQuantum
  rw [gather_valid _ _ _ _ _ _ (by omega) (and_63_lt _),
    gather_valid _ _ _ _ _ _ (by omega) (and_63_lt _), gather_pad2]
  simp only [List.nil_append, List.cons_append, convert_two a ha]

theorem decodeLoop_nil (srcLen fuel si : Nat) (acc : List Nat) :
    decodeLoop srcLen fuel [] si acc = (acc, none) := by
  cases fuel <;> simp [decodeLoop]

/-- Decoding the encoding of `b` appends `b` to the output, without error. -/
theorem decodeLoop_Encode (srcLen : Nat) (b : List Nat) :
    (∀ x ∈ b, x < 256) → ∀ fuel si acc, (Encode b).length ≤ fuel →
      decodeLoop srcLen fuel (Encode b) si acc = (acc ++ b, none) := by
  induction b using Encode.induct with
  | case1 => intro _ fuel si acc _; simp [Encode, decodeLoop_nil]
  | case2 a =>
    intro hb fuel si acc hf
    have ha : a < 256 := hb a (by simp)
    cases fuel with
    | zero => simp [Encode] at hf
    | succ f =>
      simp only [Encode, decodeLoop, decodeQuantum_two srcLen si a ha, decodeLoop_nil]
      simp
  | case3 a b =>
    intro hb fuel si acc hf
    have ha : a < 256 := hb a (by simp)
    have hb1 : b < 256 := hb b (by simp)
    cases fuel with
    | zero => simp [Encode] at hf
    | succ f =>
      simp only [Encode, decodeLoop, decodeQuantum_three srcLen si a b ha hb1, decodeLoop_nil]
      simp
  | case4 a b c rest ih =>
    intro hb fuel si acc hf
    have ha : a < 256 := hb a (by simp)
    have hb1 : b < 256 := hb b (by simp)
    have hc : c < 256 := hb c (by simp)
    cases fuel with
    | zero => simp [Encode] at hf
    | succ f =>
      have hf1 : (Encode rest).length ≤ f := by
        simp [Encode] at hf; omega
      have ih1 := ih (fun x hx => hb x (by simp [hx])) f (si + 4) (acc ++ [a, b, c]) hf1
      simp only [Encode, List.cons_append, List.nil_append, decodeLoop,
        decodeQuantum_four srcLen si a b c _ ha hb1 hc]
      simp [ih1]

theorem Encode_eq_nil (b : List Nat) (h : (Encode b).length = 0) : b = [] := by
  match b with
  | [] => rfl
  | [_] => simp [Encode] at h
  | [_, _] => simp [Encode] at h
  | _ :: _ :: _ :: _ => simp [Encode] at h

/-- Round trip on bytes: `Decode (Encode b) = b`, with no error. -/
theorem Decode_Encode (b : List Nat) (hb : ∀ x ∈ b, x < 256) :
    Decode (Encode b) = (b, none) := by
  unfold Decode
  split
  · next h => rw [Encode_eq_nil b h]
  · rw [decodeLoop_Encode _ b hb _ _ _ (Nat.le_refl _)]
    simp

theorem Encode_ascii (b : List Nat) : ∀ x ∈ Encode b, x < 128 := by
  have hp : padChar < 128 := by decide
  induction b using Encode.induct with
  | case1 => simp [Encode]
  | case2 a =>
    simp only [Encode, List.mem_cons, List.mem_singleton, List.not_mem_nil, or_false]
    rintro x (h | h | h | h) <;> subst h <;>
      first | exact hp | exact encode_lt _ (and_63_lt _)
  | case3 a b =>
    simp only [Encode, List.mem_cons, List.mem_singleton, List.not_mem_nil, or_false]
    rintro x (h | h | h | h) <;> subst h <;>
      first | exact hp | exact encode_lt _ (and_63_lt _)
  | case4 a b c rest ih =>
    simp only [Encode, List.cons_append, List.nil_append, List.mem_cons]
    rintro x (h | h | h | h | h)
    · subst h; exact encode_lt _ (and_63_lt _)
    · subst h; exact encode_lt _ (and_63_lt _)
    · subst h; exact encode_lt _ (and_63_lt _)
    · subst h; exact encode_lt _ (and_63_lt _)
    · exact ih x h

theorem goBytes_ascii (l : List Nat) (h : ∀ x ∈ l, x < 128) :
    goBytes (String.mk (l.map Char.ofNat)) = l := by
  induction l with
  | nil => rfl
  | cons x xs ih =>
    have hx := utf8_ascii x (h x (by simp))
    have ih1 := ih (fun y hy => h y (by simp [hy]))
    simp only [goBytes, List.map_cons, List.flatMap_cons] at ih1 ⊢
    rw [hx, ih1]
    rfl

/-- Round trip on strings: decoding the standard encoding of `b` gives `b` back. -/
theorem DecodeString_EncodeToString (b : List Nat) (hb : ∀ x ∈ b, x < 256) :
    DecodeString (EncodeToString b) = (b, none) := by
  unfold DecodeString EncodeToString
  rw [goBytes_ascii _ (Encode_ascii b), Decode_Encode b hb]

/-- The decoder on known inputs: full quanta, both padded forms, newlines inside the
padding, data after the padding, a truncated quantum, a byte outside the alphabet,
a non-ASCII character, and the empty string. -/
theorem DecodeString_vectors :
    DecodeString "YWJj" = ([97, 98, 99], none)
    ∧ DecodeString "YWI=" = ([97, 98], none)
    ∧ DecodeString "YQ==" = ([97], none)
    ∧ DecodeString "YQ=\n=\n" = ([97], none)
    ∧ DecodeString "YQ==YWJj" = ([97], some 4)
    ∧ DecodeString "YWJjYQ" = ([97, 98, 99], some 4)
    ∧ DecodeString "YQ=" = ([], some 3)
    ∧ DecodeString "not-base64!" = ([], some 3)
    ∧ DecodeString "YWé" = ([], some 2)
    ∧ DecodeString "" = ([], none) := by
  decide

theorem skipNewlines_length (rest : List Nat) (si : Nat) :
    (skipNewlines rest si).1.length ≤ rest.length := by
  induction rest generalizing si with
  | nil => simp [skipNewlines]
  | cons c rest ih =>
    unfold skipNewlines
    split
    · exact Nat.le_trans (ih (si + 1)) (by simp)
    · simp

theorem afterPadding_length (srcLen : Nat) (rest : List Nat) (si j : Nat) (dbuf : List Nat) :
    (afterPadding srcLen rest si j dbuf).rest.length ≤ rest.length := by
  have h1 := skipNewlines_length rest si
  unfold afterPadding
  split
  · split
    · simp [Gathered.rest]
    · next c rest1 si1 heq =>
      rw [heq] at h1
      have h2 := skipNewlines_length rest1 (si1 + 1)
      simp only [List.length_cons] at h1
      split
      · simpa [Gathered.rest] using h1
      · split
        · simp [Gathered.rest]
        · next d rest2 si2 heq2 =>
          rw [heq2] at h2
          simp only [List.length_cons] at h2
          simp only [Gathered.rest, List.length_cons]
          omega
  · split
    · simp [Gathered.rest]
    · next d rest2 si2 heq =>
      rw [heq] at h1
      simpa [Gathered.rest] using h1

theorem gather_length (srcLen : Nat) (rest : List Nat) (si j : Nat) (dbuf : List Nat) :
    (gather srcLen rest si j dbuf).rest.length ≤ rest.length := by
  induction rest generalizing si j dbuf with
  | nil => unfold gather; split <;> [simp [Gathered.rest]; (split <;> simp [Gathered.rest])]
  | cons c rest ih =>
    unfold gather
    simp only [List.length_cons]
    split
    · simp [Gathered.rest]
    · split
      · exact Nat.le_trans (ih _ _ _) (by omega)
      · split
        · exact Nat.le_trans (ih _ _ _) (by omega)
        · split
          · simp [Gathered.rest]
          · split
            · simp [Gathered.rest]
            · exact Nat.le_trans (afterPadding_length _ _ _ _ _) (by omega)

theorem gather_consumes (srcLen : Nat) (c : Nat) (rest : List Nat) (si : Nat) :
    (gather srcLen (c :: rest) si 0 []).rest.length ≤ rest.length := by
  unfold gather
  simp only [Nat.le_zero_eq, OfNat.ofNat_ne_zero, ↓reduceIte]
  split
  · exact gather_length _ _ _ _ _
  · split
    · exact gather_length _ _ _ _ _
    · split
      · simp [Gathered.rest]
      · split
        · simp [Gathered.rest]
        · exact afterPadding_length _ _ _ _ _

/-- A quantum read from a non-empty input consumes at least one byte. -/
theorem decodeQuantum_consumes (srcLen : Nat) (rest : List Nat) (si : Nat) (h : rest ≠ []) :
    (decodeQuantum srcLen rest si).rest.length < rest.length := by
  match rest, h with
  | c :: rest1, _ =>
    have h1 := gather_consumes srcLen c rest1 si
    unfold decodeQuantum
    split
    · next heq => rw [heq] at h1; simp only [Gathered.rest] at h1; simp only [List.length_cons]; omega
    · next heq => rw [heq] at h1; simp only [Gathered.rest] at h1; simp only [List.length_cons]; omega

/-- The loop of `Decode` does not depend on its fuel once the fuel reaches the length
of the input: with `fuel = len(src)` it runs to the end of the input or to the
first error, as the Go loop does. -/
theorem decodeLoop_fuel (srcLen : Nat) (fuel1 fuel2 : Nat) (rest : List Nat) (si : Nat)
    (acc : List Nat) (h1 : rest.length ≤ fuel1) (h2 : rest.length ≤ fuel2) :
    decodeLoop srcLen fuel1 rest si acc = decodeLoop srcLen fuel2 rest si acc := by
  induction fuel1 generalizing fuel2 rest si acc with
  | zero =>
    have : rest = [] := List.length_eq_zero.mp (by omega)
    subst this
    simp [decodeLoop_nil, decodeLoop]
  | succ f ih =>
    by_cases hr : rest = []
    · subst hr; simp [decodeLoop_nil]
    · cases fuel2 with
      | zero =>
        have : rest = [] := List.length_eq_zero.mp (by omega)
        exact absurd this hr
      | succ g =>
        have hc := decodeQuantum_consumes srcLen rest si hr
        simp only [decodeLoop, hr, ↓reduceIte]
        split
        · rfl
        · exact ih g _ _ _ (by omega) (by omega)

end Base64

/-! ## Lemmas on `GetContainerClusterAuth` -/

theorem GoMap.set_empty {V : Type} (k : String) (v : V) :
    (GoMap.empty : GoMap V).set k v = ⟨[(k, v)]⟩ := by
  simp [GoMap.set, GoMap.empty]

/-- With the client built and the descriptor fetched, `GetContainerClusterAuth` is
`materialize` after the two provider calls. -/
theorem GetContainerClusterAuth_fetched (env : Env) (conf : GCPConfiguration)
    (clusterName : String) (client : ClusterManagerClient) (cluster : containerpb.Cluster)
    (hNew : env.NewClusterManagerClient conf.Context = (some client, none))
    (hGet : client.GetCluster conf.Context
      ⟨"projects/" ++ conf.Project ++ "/locations/" ++ conf.Region ++ "/clusters/" ++ clusterName⟩
      = (some cluster, none)) :
    GetContainerClusterAuth env conf clusterName
      = materialize env conf cluster
          [Call.NewClusterManagerClient conf.Context,
            Call.GetCluster conf.Context
              ⟨"projects/" ++ conf.Project ++ "/locations/" ++ conf.Region ++ "/clusters/"
                ++ clusterName⟩] := by
  simp [GetContainerClusterAuth, hNew, hGet]

/-- The configuration lines 70-98 build from a descriptor with a valid certificate. -/
theorem synthesize_valid (conf : GCPConfiguration) (cluster : containerpb.Cluster)
    (masterAuth : containerpb.MasterAuth) (cert : List Nat)
    (hMA : cluster.MasterAuth = some masterAuth)
    (hCert : Base64.DecodeString masterAuth.ClusterCaCertificate = (cert, none)) :
    let name := "gke_" ++ conf.Project ++ "_" ++ cluster.Location ++ "_" ++ cluster.Name
    synthesize conf cluster = .returned (.ok
      { Kind := "Config"
        APIVersion := "v1"
        Clusters := ⟨[(name,
          { Server := "https://" ++ cluster.Endpoint, CertificateAuthorityData := cert })]⟩
        Contexts := ⟨[(name, { Cluster := name, AuthInfo := name })]⟩
        AuthInfos := ⟨[(name,
          { AuthProvider := some
              { Name := "gcp"
                Config := ⟨[("scopes", "https://www.googleapis.com/auth/cloud-platform")]⟩ } })]⟩ }) := by
  intro name
  simp only [synthesize, hMA, hCert, GoMap.set_empty]

/-- The error lines 79-82 return for a descriptor whose certificate does not decode. -/
theorem synthesize_invalid (conf : GCPConfiguration) (cluster : containerpb.Cluster)
    (masterAuth : containerpb.MasterAuth) (decoded : List Nat) (offset : Int)
    (hMA : cluster.MasterAuth = some masterAuth)
    (hBad : Base64.DecodeString masterAuth.ClusterCaCertificate = (decoded, some offset)) :
    synthesize conf cluster = .returned (.error (.wrapError
      ("invalid certificate cluster="
        ++ ("gke_" ++ conf.Project ++ "_" ++ cluster.Location ++ "_" ++ cluster.Name)
        ++ " cert=" ++ masterAuth.ClusterCaCertificate ++ ": "
        ++ (GoError.corruptInput offset).Error)
      (.corruptInput offset))) := by
  simp only [synthesize, hMA, hBad]

theorem configsBuilt_loopBody (env : Env) (config : api.Config) (st : List Call × Locals)
    (k : String) :
    configsBuilt (loopBody env config st k).1 = configsBuilt st.1 ++ [config] := by
  unfold loopBody
  dsimp only
  split <;> split <;> simp [configsBuilt, List.filterMap_append]

theorem contextsUsed_loopBody (env : Env) (config : api.Config) (st : List Call × Locals)
    (k : String) :
    contextsUsed (loopBody env config st k).1 = contextsUsed st.1 ++ [(k, k)] := by
  unfold loopBody
  dsimp only
  split <;> split <;> simp [contextsUsed, List.filterMap_append]

theorem clusterRequests_loopBody (env : Env) (config : api.Config) (st : List Call × Locals)
    (k : String) :
    clusterRequests (loopBody env config st k).1 = clusterRequests st.1 := by
  unfold loopBody
  dsimp only
  split <;> split <;> simp [clusterRequests, List.filterMap_append]

theorem clusterRequests_foldl (env : Env) (config : api.Config) (keys : List String)
    (st : List Call × Locals) :
    clusterRequests (keys.foldl (loopBody env config) st).1 = clusterRequests st.1 := by
  induction keys generalizing st with
  | nil => rfl
  | cons k ks ih => rw [List.foldl_cons, ih, clusterRequests_loopBody]

theorem clusterRequests_materialize (env : Env) (conf : GCPConfiguration)
    (cluster : containerpb.Cluster) (calls : List Call) :
    clusterRequests (materialize env conf cluster calls).calls = clusterRequests calls := by
  unfold materialize
  split
  · rfl
  · rfl
  · exact clusterRequests_foldl _ _ _ _

/-- What `materialize` does with a descriptor that has a valid certificate: one pass
of the loop body, on the one key of `config.Clusters`. -/
theorem materialize_valid (env : Env) (conf : GCPConfiguration) (cluster : containerpb.Cluster)
    (calls : List Call) (config : api.Config) (name : String) (v : api.Cluster)
    (hS : synthesize conf cluster = .returned (.ok config))
    (hK : config.Clusters = ⟨[(name, v)]⟩) :
    materialize env conf cluster calls
      = ⟨(loopBody env config (calls, ⟨none, none, none⟩) name).1,
          .returned (some
            { Clientset := (loopBody env config (calls, ⟨none, none, none⟩) name).2.clientset
              RestConfig := (loopBody env config (calls, ⟨none, none, none⟩) name).2.kubeConfig },
            none)⟩ := by
  simp [materialize, hS, hK, GoMap.keys]

/-- The calls of a run on a descriptor with a valid certificate: the two provider
calls, then one pass of the loop body on the synthesized configuration. -/
theorem calls_valid (env : Env) (conf : GCPConfiguration) (clusterName : String)
    (client : ClusterManagerClient) (cluster : containerpb.Cluster)
    (masterAuth : containerpb.MasterAuth) (cert : List Nat)
    (hNew : env.NewClusterManagerClient conf.Context = (some client, none))
    (hGet : client.GetCluster conf.Context
      ⟨"projects/" ++ conf.Project ++ "/locations/" ++ conf.Region ++ "/clusters/" ++ clusterName⟩
      = (some cluster, none))
    (hMA : cluster.MasterAuth = some masterAuth)
    (hCert : Base64.DecodeString masterAuth.ClusterCaCertificate = (cert, none)) :
    let name := "gke_" ++ conf.Project ++ "_" ++ cluster.Location ++ "_" ++ cluster.Name
    let config : api.Config :=
      { Kind := "Config"
        APIVersion := "v1"
        Clusters := ⟨[(name,
          { Server := "https://" ++ cluster.Endpoint, CertificateAuthorityData := cert })]⟩
        Contexts := ⟨[(name, { Cluster := name, AuthInfo := name })]⟩
        AuthInfos := ⟨[(name,
          { AuthProvider := some
              { Name := "gcp"
                Config := ⟨[("scopes", "https://www.googleapis.com/auth/cloud-platform")]⟩ } })]⟩ }
    (GetContainerClusterAuth env conf clusterName).calls
      = (loopBody env config
          ([Call.NewClusterManagerClient conf.Context,
            Call.GetCluster conf.Context
              ⟨"projects/" ++ conf.Project ++ "/locations/" ++ conf.Region ++ "/clusters/"
                ++ clusterName⟩], ⟨none, none, none⟩) name).1 := by
  intro name config
  rw [GetContainerClusterAuth_fetched env conf clusterName client cluster hNew hGet,
    materialize_valid env conf cluster _ config name _
      (synthesize_valid conf cluster masterAuth cert hMA hCert) rfl]

/-- The one configuration a run on a descriptor with a valid certificate hands to
`clientcmd`. -/
theorem configsBuilt_valid (env : Env) (conf : GCPConfiguration) (clusterName : String)
    (client : ClusterManagerClient) (cluster : containerpb.Cluster)
    (masterAuth : containerpb.MasterAuth) (cert : List Nat)
    (hNew : env.NewClusterManagerClient conf.Context = (some client, none))
    (hGet : client.GetCluster conf.Context
      ⟨"projects/" ++ conf.Project ++ "/locations/" ++ conf.Region ++ "/clusters/" ++ clusterName⟩
      = (some cluster, none))
    (hMA : cluster.MasterAuth = some masterAuth)
    (hCert : Base64.DecodeString masterAuth.ClusterCaCertificate = (cert, none)) :
    let name := "gke_" ++ conf.Project ++ "_" ++ cluster.Location ++ "_" ++ cluster.Name
    configsBuilt (GetContainerClusterAuth env conf clusterName).calls =
      [{ Kind := "Config"
         APIVersion := "v1"
         Clusters := ⟨[(name,
           { Server := "https://" ++ cluster.Endpoint, CertificateAuthorityData := cert })]⟩
         Contexts := ⟨[(name, { Cluster := name, AuthInfo := name })]⟩
         AuthInfos := ⟨[(name,
           { AuthProvider := some
               { Name := "gcp"
                 Config := ⟨[("scopes", "https://www.googleapis.com/auth/cloud-platform")]⟩ } })]⟩ }] := by
  intro name
  rw [calls_valid env conf clusterName client cluster masterAuth cert hNew hGet hMA hCert,
    configsBuilt_loopBody]
  simp [configsBuilt]

theorem contextsUsed_valid (env : Env) (conf : GCPConfiguration) (clusterName : String)
    (client : ClusterManagerClient) (cluster : containerpb.Cluster)
    (masterAuth : containerpb.MasterAuth) (cert : List Nat)
    (hNew : env.NewClusterManagerClient conf.Context = (some client, none))
    (hGet : client.GetCluster conf.Context
      ⟨"projects/" ++ conf.Project ++ "/locations/" ++ conf.Region ++ "/clusters/" ++ clusterName⟩
      = (some cluster, none))
    (hMA : cluster.MasterAuth = some masterAuth)
    (hCert : Base64.DecodeString masterAuth.ClusterCaCertificate = (cert, none)) :
    contextsUsed (GetContainerClusterAuth env conf clusterName).calls =
      [("gke_" ++ conf.Project ++ "_" ++ cluster.Location ++ "_" ++ cluster.Name,
        "gke_" ++ conf.Project ++ "_" ++ cluster.Location ++ "_" ++ cluster.Name)] := by
  rw [calls_valid env conf clusterName client cluster masterAuth cert hNew hGet hMA hCert,
    contextsUsed_loopBody]
  simp [contextsUsed]

/-- The run on a descriptor whose certificate does not decode. -/
theorem run_invalid (env : Env) (conf : GCPConfiguration) (clusterName : String)
    (client : ClusterManagerClient) (cluster : containerpb.Cluster)
    (masterAuth : containerpb.MasterAuth) (decoded : List Nat) (offset : Int)
    (hNew : env.NewClusterManagerClient conf.Context = (some client, none))
    (hGet : client.GetCluster conf.Context
      ⟨"projects/" ++ conf.Project ++ "/locations/" ++ conf.Region ++ "/clusters/" ++ clusterName⟩
      = (some cluster, none))
    (hMA : cluster.MasterAuth = some masterAuth)
    (hBad : Base64.DecodeString masterAuth.ClusterCaCertificate = (decoded, some offset)) :
    GetContainerClusterAuth env conf clusterName =
      ⟨[Call.NewClusterManagerClient conf.Context,
        Call.GetCluster conf.Context
          ⟨"projects/" ++ conf.Project ++ "/locations/" ++ conf.Region ++ "/clusters/"
            ++ clusterName⟩],
       .returned (none, some (.wrapError
        ("invalid certificate cluster="
          ++ ("gke_" ++ conf.Project ++ "_" ++ cluster.Location ++ "_" ++ cluster.Name)
          ++ " cert=" ++ masterAuth.ClusterCaCertificate ++ ": "
          ++ ("illegal base64 data at input byte " ++ toString offset))
        (.corruptInput offset)))⟩ := by
  rw [GetContainerClusterAuth_fetched env conf clusterName client cluster hNew hGet]
  simp only [materialize, synthesize, hMA, hBad, GoError.Error]

/-- A run on a descriptor with a valid certificate returns a handle and a nil error,
whatever client-go answered. -/
theorem outcome_valid (env : Env) (conf : GCPConfiguration) (clusterName : String)
    (client : ClusterManagerClient) (cluster : containerpb.Cluster)
    (masterAuth : containerpb.MasterAuth) (cert : List Nat)
    (hNew : env.NewClusterManagerClient conf.Context = (some client, none))
    (hGet : client.GetCluster conf.Context
      ⟨"projects/" ++ conf.Project ++ "/locations/" ++ conf.Region ++ "/clusters/" ++ clusterName⟩
      = (some cluster, none))
    (hMA : cluster.MasterAuth = some masterAuth)
    (hCert : Base64.DecodeString masterAuth.ClusterCaCertificate = (cert, none)) :
    ∃ handle, (GetContainerClusterAuth env conf clusterName).outcome
      = .returned (some handle, none) := by
  rw [GetContainerClusterAuth_fetched env conf clusterName client cluster hNew hGet,
    materialize_valid env conf cluster _ _ _ _
      (synthesize_valid conf cluster masterAuth cert hMA hCert) rfl]
  exact ⟨_, rfl⟩

/-- A run on a descriptor without `MasterAuth` panics after the two provider calls. -/
theorem run_nil_masterAuth (env : Env) (conf : GCPConfiguration) (clusterName : String)
    (client : ClusterManagerClient) (cluster : containerpb.Cluster)
    (hNew : env.NewClusterManagerClient conf.Context = (some client, none))
    (hGet : client.GetCluster conf.Context
      ⟨"projects/" ++ conf.Project ++ "/locations/" ++ conf.Region ++ "/clusters/" ++ clusterName⟩
      = (some cluster, none))
    (hMA : cluster.MasterAuth = none) :
    GetContainerClusterAuth env conf clusterName =
      ⟨[Call.NewClusterManagerClient conf.Context,
        Call.GetCluster conf.Context
          ⟨"projects/" ++ conf.Project ++ "/locations/" ++ conf.Region ++ "/clusters/"
            ++ clusterName⟩], .panicked⟩ := by
  rw [GetContainerClusterAuth_fetched env conf clusterName client cluster hNew hGet]
  simp only [materialize, synthesize, hMA]

/-! ## The claims -/

/-- C1: for a configured project `P` and a fetched descriptor with location `L` and
name `N`, the context name `GetContainerClusterAuth` derives is exactly
`"gke_" ++ P ++ "_" ++ L ++ "_" ++ N`: with a valid certificate it is the context and
the `CurrentContext` handed to `clientcmd`, and any other run that fetches the same
descriptor for the same project, whatever its region, cluster-name argument and
environment, uses the same name; with an invalid certificate it is the name in the
returned error. -/
theorem C1_context_name (env : Env) (conf : GCPConfiguration) (clusterName : String)
    (client : ClusterManagerClient) (cluster : containerpb.Cluster)
    (masterAuth : containerpb.MasterAuth)
    (hNew : env.NewClusterManagerClient conf.Context = (some client, none))
    (hGet : client.GetCluster conf.Context
      ⟨"projects/" ++ conf.Project ++ "/locations/" ++ conf.Region ++ "/clusters/" ++ clusterName⟩
      = (some cluster, none))
    (hMA : cluster.MasterAuth = some masterAuth) :
    (∀ cert, Base64.DecodeString masterAuth.ClusterCaCertificate = (cert, none) →
      contextsUsed (GetContainerClusterAuth env conf clusterName).calls =
        [("gke_" ++ conf.Project ++ "_" ++ cluster.Location ++ "_" ++ cluster.Name,
          "gke_" ++ conf.Project ++ "_" ++ cluster.Location ++ "_" ++ cluster.Name)]
      ∧ ∀ (env2 : Env) (region2 clusterName2 : String) (client2 : ClusterManagerClient),
          env2.NewClusterManagerClient conf.Context = (some client2, none) →
          client2.GetCluster conf.Context
            ⟨"projects/" ++ conf.Project ++ "/locations/" ++ region2 ++ "/clusters/"
              ++ clusterName2⟩ = (some cluster, none) →
          contextsUsed
              (GetContainerClusterAuth env2 { conf with Region := region2 } clusterName2).calls
            = contextsUsed (GetContainerClusterAuth env conf clusterName).calls)
    ∧ (∀ decoded offset,
        Base64.DecodeString masterAuth.ClusterCaCertificate = (decoded, some offset) →
        ∃ err, (GetContainerClusterAuth env conf clusterName).outcome
            = .returned (none, some err)
          ∧ err.Error = "invalid certificate cluster="
              ++ ("gke_" ++ conf.Project ++ "_" ++ cluster.Location ++ "_" ++ cluster.Name)
              ++ " cert=" ++ masterAuth.ClusterCaCertificate ++ ": "
              ++ ("illegal base64 data at input byte " ++ toString offset)) := by
  refine ⟨fun cert hCert => ⟨?_, ?_⟩, fun decoded offset hBad => ?_⟩
  · exact contextsUsed_valid env conf clusterName client cluster masterAuth cert hNew hGet hMA
      hCert
  · intro env2 region2 clusterName2 client2 hNew2 hGet2
    rw [contextsUsed_valid env conf clusterName client cluster masterAuth cert hNew hGet hMA
      hCert]
    exact contextsUsed_valid env2 { conf with Region := region2 } clusterName2 client2 cluster
      masterAuth cert hNew2 hGet2 hMA hCert
  · rw [run_invalid env conf clusterName client cluster masterAuth decoded offset hNew hGet hMA
      hBad]
    exact ⟨_, rfl, rfl⟩

/-- C1 at project `acme`, location `us-central1`, name `prod`: the name is
`gke_acme_us-central1_prod`, also when the caller asks for another cluster name in
another region. -/
theorem C1_context_name_witness :
    contextsUsed (GetContainerClusterAuth (healthyEnv (prod "10.0.0.1" (some ⟨"YWJj"⟩)))
        (acme "europe-west1") "other").calls
      = [("gke_acme_us-central1_prod", "gke_acme_us-central1_prod")] :=
  ((C1_context_name (healthyEnv (prod "10.0.0.1" (some ⟨"YWJj"⟩))) (acme "europe-west1") "other"
    (fakeClient (some ⟨[prod "10.0.0.1" (some ⟨"YWJj"⟩)], []⟩, none)
      (some (prod "10.0.0.1" (some ⟨"YWJj"⟩)), none))
    (prod "10.0.0.1" (some ⟨"YWJj"⟩)) ⟨"YWJj"⟩ rfl rfl rfl).1 [97, 98, 99] (by decide)).1

/-- C2: for a descriptor with a valid certificate, the configuration handed to client
construction has exactly one entry in `Clusters`, one in `Contexts` and one in
`AuthInfos`, all keyed by `gke_<project>_<location>_<name>`; the context refers to
that name for its cluster and its auth info, and both references resolve. Nothing
else is in the configuration: kind and version are those of the literal and no
current context is set. -/
theorem C2_single_entry (env : Env) (conf : GCPConfiguration) (clusterName : String)
    (client : ClusterManagerClient) (cluster : containerpb.Cluster)
    (masterAuth : containerpb.MasterAuth) (cert : List Nat)
    (hNew : env.NewClusterManagerClient conf.Context = (some client, none))
    (hGet : client.GetCluster conf.Context
      ⟨"projects/" ++ conf.Project ++ "/locations/" ++ conf.Region ++ "/clusters/" ++ clusterName⟩
      = (some cluster, none))
    (hMA : cluster.MasterAuth = some masterAuth)
    (hCert : Base64.DecodeString masterAuth.ClusterCaCertificate = (cert, none)) :
    let name := "gke_" ++ conf.Project ++ "_" ++ cluster.Location ++ "_" ++ cluster.Name
    ∃ config, configsBuilt (GetContainerClusterAuth env conf clusterName).calls = [config]
      ∧ config.Clusters.len = 1 ∧ config.Contexts.len = 1 ∧ config.AuthInfos.len = 1
      ∧ config.Clusters.keys = [name] ∧ config.Contexts.keys = [name]
      ∧ config.AuthInfos.keys = [name]
      ∧ (∃ context, config.Contexts.get? name = some context
          ∧ context.Cluster = name ∧ context.AuthInfo = name
          ∧ (config.Clusters.get? context.Cluster).isSome = true
          ∧ (config.AuthInfos.get? context.AuthInfo).isSome = true)
      ∧ config.Kind = "Config" ∧ config.APIVersion = "v1" ∧ config.CurrentContext = "" := by
  intro name
  refine ⟨_, configsBuilt_valid env conf clusterName client cluster masterAuth cert hNew hGet hMA
    hCert, ?_⟩
  simp [GoMap.len, GoMap.keys, GoMap.get?]

/-- C2 at project `acme` and cluster `prod` of `us-central1` with certificate `YWJj`. -/
theorem C2_single_entry_witness :
    ∃ config,
      configsBuilt (GetContainerClusterAuth (healthyEnv (prod "10.0.0.1" (some ⟨"YWJj"⟩)))
        (acme "us-central1") "prod").calls = [config]
      ∧ config.Clusters.keys = ["gke_acme_us-central1_prod"]
      ∧ config.Contexts.keys = ["gke_acme_us-central1_prod"]
      ∧ config.AuthInfos.keys = ["gke_acme_us-central1_prod"] := by
  obtain ⟨config, h1, _, _, _, h5, h6, h7, _⟩ :=
    C2_single_entry (healthyEnv (prod "10.0.0.1" (some ⟨"YWJj"⟩))) (acme "us-central1") "prod"
      (fakeClient (some ⟨[prod "10.0.0.1" (some ⟨"YWJj"⟩)], []⟩, none)
        (some (prod "10.0.0.1" (some ⟨"YWJj"⟩)), none))
      (prod "10.0.0.1" (some ⟨"YWJj"⟩)) ⟨"YWJj"⟩ [97, 98, 99] rfl rfl rfl (by decide)
  exact ⟨config, h1, h5, h6, h7⟩

/-- C3: for a fetched descriptor whose CA certificate does not decode as standard
base64, `GetContainerClusterAuth` returns a nil handle and a non-nil error; the
message of the error holds the derived context name and the encoded value, and the
error wraps the decoder's `CorruptInputError`; the only calls made are the two
provider calls, so no REST configuration and no clientset was asked for. -/
theorem C3_invalid_certificate (env : Env) (conf : GCPConfiguration) (clusterName : String)
    (client : ClusterManagerClient) (cluster : containerpb.Cluster)
    (masterAuth : containerpb.MasterAuth) (decoded : List Nat) (offset : Int)
    (hNew : env.NewClusterManagerClient conf.Context = (some client, none))
    (hGet : client.GetCluster conf.Context
      ⟨"projects/" ++ conf.Project ++ "/locations/" ++ conf.Region ++ "/clusters/" ++ clusterName⟩
      = (some cluster, none))
    (hMA : cluster.MasterAuth = some masterAuth)
    (hBad : Base64.DecodeString masterAuth.ClusterCaCertificate = (decoded, some offset)) :
    (∃ err, (GetContainerClusterAuth env conf clusterName).outcome = .returned (none, some err)
      ∧ err.Error = "invalid certificate cluster="
          ++ ("gke_" ++ conf.Project ++ "_" ++ cluster.Location ++ "_" ++ cluster.Name)
          ++ " cert=" ++ masterAuth.ClusterCaCertificate ++ ": "
          ++ (GoError.corruptInput offset).Error
      ∧ err.Unwrap = some (.corruptInput offset))
    ∧ (GetContainerClusterAuth env conf clusterName).calls
        = [Call.NewClusterManagerClient conf.Context,
            Call.GetCluster conf.Context
              ⟨"projects/" ++ conf.Project ++ "/locations/" ++ conf.Region ++ "/clusters/"
                ++ clusterName⟩]
    ∧ clientConstructions (GetContainerClusterAuth env conf clusterName).calls = 0 := by
  rw [run_invalid env conf clusterName client cluster masterAuth decoded offset hNew hGet hMA
    hBad]
  exact ⟨⟨_, rfl, rfl, rfl⟩, rfl, rfl⟩

/-- C3 at the certificate `not-base64!`: the decoder stops at byte 3, the `-`. -/
theorem C3_invalid_certificate_witness :
    (∃ err,
      (GetContainerClusterAuth (healthyEnv (prod "10.0.0.1" (some ⟨"not-base64!"⟩)))
        (acme "us-central1") "prod").outcome = .returned (none, some err)
      ∧ err.Error = "invalid certificate cluster=gke_acme_us-central1_prod cert=not-base64!: "
          ++ "illegal base64 data at input byte 3"
      ∧ err.Unwrap = some (.corruptInput 3))
    ∧ clientConstructions
        (GetContainerClusterAuth (healthyEnv (prod "10.0.0.1" (some ⟨"not-base64!"⟩)))
          (acme "us-central1") "prod").calls = 0 := by
  obtain ⟨⟨err, h1, h2, h3⟩, _, h5⟩ :=
    C3_invalid_certificate (healthyEnv (prod "10.0.0.1" (some ⟨"not-base64!"⟩)))
      (acme "us-central1") "prod"
      (fakeClient (some ⟨[prod "10.0.0.1" (some ⟨"not-base64!"⟩)], []⟩, none)
        (some (prod "10.0.0.1" (some ⟨"not-base64!"⟩)), none))
      (prod "10.0.0.1" (some ⟨"not-base64!"⟩)) ⟨"not-base64!"⟩ [] 3 rfl rfl rfl (by decide)
  exact ⟨⟨err, h1, h2, h3⟩, h5⟩

/-- C4, the code at a failing input: the provider returns a descriptor with a valid
certificate, client-go builds the REST configuration and fails to build the
clientset. The failure is printed; the operation returns a nil error and a handle
whose `Clientset` is nil. -/
theorem C4_failure_not_propagated :
    GetContainerClusterAuth (brokenTransportEnv (prod "10.0.0.1" (some ⟨"YWJj"⟩)))
        (acme "us-central1") "prod"
      = ⟨[Call.NewClusterManagerClient ⟨0⟩,
          Call.GetCluster ⟨0⟩ ⟨"projects/acme/locations/us-central1/clusters/prod"⟩,
          Call.ClientConfig
            { Kind := "Config"
              APIVersion := "v1"
              Clusters := ⟨[("gke_acme_us-central1_prod",
                { Server := "https://10.0.0.1", CertificateAuthorityData := [97, 98, 99] })]⟩
              Contexts := ⟨[("gke_acme_us-central1_prod",
                { Cluster := "gke_acme_us-central1_prod",
                  AuthInfo := "gke_acme_us-central1_prod" })]⟩
              AuthInfos := ⟨[("gke_acme_us-central1_prod",
                { AuthProvider := some
                    { Name := "gcp"
                      Config :=
                        ⟨[("scopes", "https://www.googleapis.com/auth/cloud-platform")]⟩ } })]⟩ }
            "gke_acme_us-central1_prod" ⟨"gke_acme_us-central1_prod"⟩,
          Call.NewForConfig (some ⟨1⟩),
          Call.Printf ("error buildling kubernetes clientset: "
            ++ "unable to load root certificates: unable to parse bytes as PEM block")],
         .returned (some { Clientset := none, RestConfig := some ⟨1⟩ }, none)⟩ := by
  decide

/-- C5 as stated fails: a descriptor whose endpoint already carries a scheme gets a
server URL with a double scheme. -/
theorem C5_double_scheme :
    serversBuilt (GetContainerClusterAuth (healthyEnv (prod "https://10.0.0.1" (some ⟨"YWJj"⟩)))
        (acme "us-central1") "prod").calls = ["https://https://10.0.0.1"]
    ∧ beginsWith "https://https://10.0.0.1" "https://https://" := by
  decide

theorem beginsWith_append (p s t : String) : beginsWith (p ++ s) (p ++ t) ↔ beginsWith s t := by
  simp [beginsWith, String.data_append, List.prefix_append_right_inj]

/-- C5, amended: for a descriptor with endpoint `E` and a valid certificate, the
`Server` of the single cluster entry is exactly `"https://" ++ E`; it begins with
`https://` and is never the bare `E`; it begins with `https://https://` (or
`https://http://`) exactly when `E` itself begins with `https://` (or `http://`). -/
theorem C5_server_url (env : Env) (conf : GCPConfiguration) (clusterName : String)
    (client : ClusterManagerClient) (cluster : containerpb.Cluster)
    (masterAuth : containerpb.MasterAuth) (cert : List Nat)
    (hNew : env.NewClusterManagerClient conf.Context = (some client, none))
    (hGet : client.GetCluster conf.Context
      ⟨"projects/" ++ conf.Project ++ "/locations/" ++ conf.Region ++ "/clusters/" ++ clusterName⟩
      = (some cluster, none))
    (hMA : cluster.MasterAuth = some masterAuth)
    (hCert : Base64.DecodeString masterAuth.ClusterCaCertificate = (cert, none)) :
    serversBuilt (GetContainerClusterAuth env conf clusterName).calls
        = ["https://" ++ cluster.Endpoint]
    ∧ beginsWith ("https://" ++ cluster.Endpoint) "https://"
    ∧ "https://" ++ cluster.Endpoint ≠ cluster.Endpoint
    ∧ (beginsWith ("https://" ++ cluster.Endpoint) "https://https://"
        ↔ beginsWith cluster.Endpoint "https://")
    ∧ (beginsWith ("https://" ++ cluster.Endpoint) "https://http://"
        ↔ beginsWith cluster.Endpoint "http://") := by
  refine ⟨?_, ?_, ?_, ?_, ?_⟩
  · simp [serversBuilt,
      configsBuilt_valid env conf clusterName client cluster masterAuth cert hNew hGet hMA hCert]
  · simp [beginsWith, String.data_append]
  · intro h
    have h1 := congrArg String.length h
    simp [String.length_append] at h1
    have h2 : "https://".length = 8 := by decide
    omega
  · exact beginsWith_append "https://" cluster.Endpoint "https://"
  · exact beginsWith_append "https://" cluster.Endpoint "http://"

/-- C5 (amended) at the endpoint `10.0.0.1`. -/
theorem C5_server_url_witness :
    serversBuilt (GetContainerClusterAuth (healthyEnv (prod "10.0.0.1" (some ⟨"YWJj"⟩)))
        (acme "us-central1") "prod").calls = ["https://10.0.0.1"] :=
  (C5_server_url (healthyEnv (prod "10.0.0.1" (some ⟨"YWJj"⟩))) (acme "us-central1") "prod"
    (fakeClient (some ⟨[prod "10.0.0.1" (some ⟨"YWJj"⟩)], []⟩, none)
      (some (prod "10.0.0.1" (some ⟨"YWJj"⟩)), none))
    (prod "10.0.0.1" (some ⟨"YWJj"⟩)) ⟨"YWJj"⟩ [97, 98, 99] rfl rfl rfl (by decide)).1

/-- C6: for every byte string `b`, if the CA certificate field of the fetched
descriptor is the standard padded base64 encoding of `b`, the decoder returns `b`
with no error, the `CertificateAuthorityData` of the synthesized cluster entry is
`b`, and the operation returns a handle with a nil error. -/
theorem C6_certificate_roundtrip (env : Env) (conf : GCPConfiguration) (clusterName : String)
    (client : ClusterManagerClient) (cluster : containerpb.Cluster) (b : List Nat)
    (hb : ∀ x ∈ b, x < 256)
    (hNew : env.NewClusterManagerClient conf.Context = (some client, none))
    (hGet : client.GetCluster conf.Context
      ⟨"projects/" ++ conf.Project ++ "/locations/" ++ conf.Region ++ "/clusters/" ++ clusterName⟩
      = (some cluster, none))
    (hMA : cluster.MasterAuth = some ⟨Base64.EncodeToString b⟩) :
    Base64.DecodeString (Base64.EncodeToString b) = (b, none)
    ∧ certsBuilt (GetContainerClusterAuth env conf clusterName).calls = [b]
    ∧ ∃ handle, (GetContainerClusterAuth env conf clusterName).outcome
        = .returned (some handle, none) := by
  have hCert := Base64.DecodeString_EncodeToString b hb
  refine ⟨hCert, ?_, ?_⟩
  · simp [certsBuilt,
      configsBuilt_valid env conf clusterName client cluster ⟨Base64.EncodeToString b⟩ b hNew hGet
        hMA hCert]
  · exact outcome_valid env conf clusterName client cluster ⟨Base64.EncodeToString b⟩ b hNew hGet
      hMA hCert

/-- C6 at the bytes `abc`, whose encoding is the payload `YWJj`. -/
theorem C6_certificate_roundtrip_witness :
    Base64.EncodeToString [97, 98, 99] = "YWJj"
    ∧ certsBuilt (GetContainerClusterAuth (healthyEnv (prod "10.0.0.1" (some ⟨"YWJj"⟩)))
        (acme "us-central1") "prod").calls = [[97, 98, 99]] :=
  ⟨by decide,
    (C6_certificate_roundtrip (healthyEnv (prod "10.0.0.1" (some ⟨"YWJj"⟩))) (acme "us-central1")
      "prod"
      (fakeClient (some ⟨[prod "10.0.0.1" (some ⟨"YWJj"⟩)], []⟩, none)
        (some (prod "10.0.0.1" (some ⟨"YWJj"⟩)), none))
      (prod "10.0.0.1" (some ⟨"YWJj"⟩)) [97, 98, 99] (by decide) rfl rfl (by decide)).2.1⟩

/-- C7: `ListContainerClusters` and `GetContainerCluster` hand on what the provider
returned. If the client is built and the provider call succeeds with response `r`,
the operation returns `r` and a nil error; if building the client fails with cause
`c`, it returns nil and the error `"could not create google container client: " + c`
and makes no provider call; if the provider call fails with cause `c`, it returns nil
and the error `"error listing container clusters: " + c` (list) or
`"error getting container cluster: " + c` (get). A non-nil result never comes with a
non-nil error. -/
theorem C7_list_get_passthrough (env : Env) (conf : GCPConfiguration) (clusterName : String) :
    (∀ client r, env.NewClusterManagerClient conf.Context = (some client, none) →
      client.ListClusters conf.Context ⟨"projects/" ++ conf.Project ++ "/locations/-"⟩
        = (r, none) →
      (ListContainerClusters env conf).outcome = .returned (r, none))
    ∧ (∀ client c, env.NewClusterManagerClient conf.Context = (client, some c) →
      ListContainerClusters env conf
        = ⟨[Call.NewClusterManagerClient conf.Context],
            .returned (none, some (.errorString
              ("could not create google container client: " ++ c.Error)))⟩)
    ∧ (∀ client r c, env.NewClusterManagerClient conf.Context = (some client, none) →
      client.ListClusters conf.Context ⟨"projects/" ++ conf.Project ++ "/locations/-"⟩
        = (r, some c) →
      (ListContainerClusters env conf).outcome
        = .returned (none, some (.errorString
            ("error listing container clusters: " ++ c.Error))))
    ∧ (∀ r e, (ListContainerClusters env conf).outcome = .returned (r, e) →
        r = none ∨ e = none)
    ∧ (∀ client r, env.NewClusterManagerClient conf.Context = (some client, none) →
      client.GetCluster conf.Context
        ⟨"projects/" ++ conf.Project ++ "/locations/" ++ conf.Region ++ "/clusters/"
          ++ clusterName⟩ = (r, none) →
      (GetContainerCluster env conf clusterName).outcome = .returned (r, none))
    ∧ (∀ client c, env.NewClusterManagerClient conf.Context = (client, some c) →
      GetContainerCluster env conf clusterName
        = ⟨[Call.NewClusterManagerClient conf.Context],
            .returned (none, some (.errorString
              ("could not create google container client: " ++ c.Error)))⟩)
    ∧ (∀ client r c, env.NewClusterManagerClient conf.Context = (some client, none) →
      client.GetCluster conf.Context
        ⟨"projects/" ++ conf.Project ++ "/locations/" ++ conf.Region ++ "/clusters/"
          ++ clusterName⟩ = (r, some c) →
      (GetContainerCluster env conf clusterName).outcome
        = .returned (none, some (.errorString
            ("error getting container cluster: " ++ c.Error))))
    ∧ (∀ r e, (GetContainerCluster env conf clusterName).outcome = .returned (r, e) →
        r = none ∨ e = none) := by
  refine ⟨?_, ?_, ?_, ?_, ?_, ?_, ?_, ?_⟩
  · intro client r hNew hCall
    simp [ListContainerClusters, hNew, hCall]
  · intro client c hNew
    simp [ListContainerClusters, hNew]
  · intro client r c hNew hCall
    simp [ListContainerClusters, hNew, hCall]
  · intro r e
    unfold ListContainerClusters
    dsimp only
    split
    · simp only [Outcome.returned.injEq, Prod.mk.injEq]; rintro ⟨h, _⟩; exact Or.inl h.symm
    · simp
    · split
      · simp only [Outcome.returned.injEq, Prod.mk.injEq]; rintro ⟨h, _⟩; exact Or.inl h.symm
      · simp only [Outcome.returned.injEq, Prod.mk.injEq]; rintro ⟨_, h⟩; exact Or.inr h.symm
  · intro client r hNew hCall
    simp [GetContainerCluster, hNew, hCall]
  · intro client c hNew
    simp [GetContainerCluster, hNew]
  · intro client r c hNew hCall
    simp [GetContainerCluster, hNew, hCall]
  · intro r e
    unfold GetContainerCluster
    dsimp only
    split
    · simp only [Outcome.returned.injEq, Prod.mk.injEq]; rintro ⟨h, _⟩; exact Or.inl h.symm
    · simp
    · split
      · simp only [Outcome.returned.injEq, Prod.mk.injEq]; rintro ⟨h, _⟩; exact Or.inl h.symm
      · simp only [Outcome.returned.injEq, Prod.mk.injEq]; rintro ⟨_, h⟩; exact Or.inr h.symm

/-- C7 at a provider that returns the cluster `prod`, and at a client that cannot be
built. -/
theorem C7_list_get_passthrough_witness :
    (ListContainerClusters (healthyEnv (prod "10.0.0.1" none)) (acme "us-central1")).outcome
      = .returned (some ⟨[prod "10.0.0.1" none], []⟩, none)
    ∧ (GetContainerCluster (healthyEnv (prod "10.0.0.1" none)) (acme "us-central1")
        "prod").outcome = .returned (some (prod "10.0.0.1" none), none)
    ∧ GetContainerCluster
        (fakeEnv (none, some (.external "no credentials")) (none, none) (none, none))
        (acme "us-central1") "prod"
      = ⟨[Call.NewClusterManagerClient ⟨0⟩],
          .returned (none, some (.errorString
            ("could not create google container client: " ++ "no credentials")))⟩ :=
  ⟨(C7_list_get_passthrough (healthyEnv (prod "10.0.0.1" none)) (acme "us-central1") "prod").1
      _ _ rfl rfl,
    (C7_list_get_passthrough (healthyEnv (prod "10.0.0.1" none)) (acme "us-central1")
      "prod").2.2.2.2.1 _ _ rfl rfl,
    (C7_list_get_passthrough
      (fakeEnv (none, some (.external "no credentials")) (none, none) (none, none))
      (acme "us-central1") "prod").2.2.2.2.2.1 _ _ rfl⟩

/-- C8: once the client is built, `GetContainerCluster` sends exactly one request, for
the resource `"projects/" + P + "/locations/" + R + "/clusters/" + N`;
`GetContainerClusterAuth` sends exactly the same request for the same `P`, `R`, `N`;
and `ListContainerClusters` sends exactly one request, for the parent made of
`"projects/"`, `P`, `"/locations/"` and the wildcard `-`, whatever the region. -/
theorem C8_resource_names (env : Env) (conf : GCPConfiguration) (clusterName : String)
    (client : ClusterManagerClient)
    (hNew : env.NewClusterManagerClient conf.Context = (some client, none)) :
    clusterRequests (GetContainerCluster env conf clusterName).calls
      = ["projects/" ++ conf.Project ++ "/locations/" ++ conf.Region ++ "/clusters/"
          ++ clusterName]
    ∧ clusterRequests (GetContainerClusterAuth env conf clusterName).calls
      = ["projects/" ++ conf.Project ++ "/locations/" ++ conf.Region ++ "/clusters/"
          ++ clusterName]
    ∧ listRequests (ListContainerClusters env conf).calls
      = ["projects/" ++ conf.Project ++ "/locations/-"]
    ∧ ∀ region2, listRequests (ListContainerClusters env { conf with Region := region2 }).calls
      = ["projects/" ++ conf.Project ++ "/locations/-"] := by
  refine ⟨?_, ?_, ?_, ?_⟩
  · unfold GetContainerCluster
    simp only [hNew]
    split <;> simp [clusterRequests]
  · unfold GetContainerClusterAuth
    simp only [hNew]
    split
    · simp [clusterRequests]
    · simp [clusterRequests]
    · rw [clusterRequests_materialize]
      simp [clusterRequests]
  · unfold ListContainerClusters
    simp only [hNew]
    split <;> simp [listRequests]
  · intro region2
    unfold ListContainerClusters
    simp only [hNew]
    split <;> simp [listRequests]

/-- C8 at project `acme`, region `us-central1` and cluster name `prod`. -/
theorem C8_resource_names_witness :
    clusterRequests (GetContainerCluster (healthyEnv (prod "10.0.0.1" (some ⟨"YWJj"⟩)))
        (acme "us-central1") "prod").calls
      = ["projects/acme/locations/us-central1/clusters/prod"]
    ∧ clusterRequests (GetContainerClusterAuth (healthyEnv (prod "10.0.0.1" (some ⟨"YWJj"⟩)))
        (acme "us-central1") "prod").calls
      = ["projects/acme/locations/us-central1/clusters/prod"]
    ∧ listRequests (ListContainerClusters (healthyEnv (prod "10.0.0.1" (some ⟨"YWJj"⟩)))
        (acme "us-central1")).calls
      = ["projects/acme/locations/-"] := by
  obtain ⟨h1, h2, h3, _⟩ :=
    C8_resource_names (healthyEnv (prod "10.0.0.1" (some ⟨"YWJj"⟩))) (acme "us-central1") "prod"
      (fakeClient (some ⟨[prod "10.0.0.1" (some ⟨"YWJj"⟩)], []⟩, none)
        (some (prod "10.0.0.1" (some ⟨"YWJj"⟩)), none)) rfl
  exact ⟨h1, h2, h3⟩

/-- C9: for a descriptor with a valid certificate, the configuration built has one
auth-info entry; its auth provider is named `gcp` and has the one option `scopes`,
with value `https://www.googleapis.com/auth/cloud-platform`; the entry carries no
token, no user name or password and no client certificate or key. The entry is this
same value for every descriptor and project. -/
theorem C9_auth_info (env : Env) (conf : GCPConfiguration) (clusterName : String)
    (client : ClusterManagerClient) (cluster : containerpb.Cluster)
    (masterAuth : containerpb.MasterAuth) (cert : List Nat)
    (hNew : env.NewClusterManagerClient conf.Context = (some client, none))
    (hGet : client.GetCluster conf.Context
      ⟨"projects/" ++ conf.Project ++ "/locations/" ++ conf.Region ++ "/clusters/" ++ clusterName⟩
      = (some cluster, none))
    (hMA : cluster.MasterAuth = some masterAuth)
    (hCert : Base64.DecodeString masterAuth.ClusterCaCertificate = (cert, none)) :
    ∃ authInfo provider,
      authInfosBuilt (GetContainerClusterAuth env conf clusterName).calls = [authInfo]
      ∧ authInfo =
          { AuthProvider := some
              { Name := "gcp"
                Config := ⟨[("scopes", "https://www.googleapis.com/auth/cloud-platform")]⟩ } }
      ∧ authInfo.AuthProvider = some provider
      ∧ provider.Name = "gcp"
      ∧ provider.Config.len = 1
      ∧ provider.Config.keys = ["scopes"]
      ∧ provider.Config.get? "scopes" = some "https://www.googleapis.com/auth/cloud-platform"
      ∧ authInfo.Token = "" ∧ authInfo.TokenFile = ""
      ∧ authInfo.Username = "" ∧ authInfo.Password = ""
      ∧ authInfo.ClientCertificate = "" ∧ authInfo.ClientCertificateData = []
      ∧ authInfo.ClientKey = "" ∧ authInfo.ClientKeyData = [] := by
  refine ⟨_, _, ?_, rfl, rfl, ?_⟩
  · simp [authInfosBuilt,
      configsBuilt_valid env conf clusterName client cluster masterAuth cert hNew hGet hMA hCert]
  · simp [GoMap.len, GoMap.keys, GoMap.get?]

/-- C9 at project `acme` and cluster `prod` with certificate `YWJj`. -/
theorem C9_auth_info_witness :
    authInfosBuilt (GetContainerClusterAuth (healthyEnv (prod "10.0.0.1" (some ⟨"YWJj"⟩)))
        (acme "us-central1") "prod").calls
      = [{ AuthProvider := some
            { Name := "gcp"
              Config := ⟨[("scopes", "https://www.googleapis.com/auth/cloud-platform")]⟩ } }] := by
  obtain ⟨authInfo, _, h1, h2, _⟩ :=
    C9_auth_info (healthyEnv (prod "10.0.0.1" (some ⟨"YWJj"⟩))) (acme "us-central1") "prod"
      (fakeClient (some ⟨[prod "10.0.0.1" (some ⟨"YWJj"⟩)], []⟩, none)
        (some (prod "10.0.0.1" (some ⟨"YWJj"⟩)), none))
      (prod "10.0.0.1" (some ⟨"YWJj"⟩)) ⟨"YWJj"⟩ [97, 98, 99] rfl rfl rfl (by decide)
  rw [h1, h2]

/-- C10: the read of the CA certificate is unguarded. For a fetched descriptor, lines
70-82 panic exactly when `MasterAuth` is nil; when it is present they end either
with the decoded bytes (stored in the cluster entry) or with a returned decode
error. On the whole operation (the library calls being taken to return): with a nil
`MasterAuth` it panics right after the two provider calls, and it panics only then. -/
theorem C10_master_auth_unguarded (env : Env) (conf : GCPConfiguration) (clusterName : String)
    (client : ClusterManagerClient) (cluster : containerpb.Cluster)
    (hNew : env.NewClusterManagerClient conf.Context = (some client, none))
    (hGet : client.GetCluster conf.Context
      ⟨"projects/" ++ conf.Project ++ "/locations/" ++ conf.Region ++ "/clusters/" ++ clusterName⟩
      = (some cluster, none)) :
    (synthesize conf cluster = .panicked ↔ cluster.MasterAuth = none)
    ∧ (∀ masterAuth, cluster.MasterAuth = some masterAuth →
        (∃ cert config,
          Base64.DecodeString masterAuth.ClusterCaCertificate = (cert, none)
          ∧ synthesize conf cluster = .returned (.ok config)
          ∧ config.Clusters.entries.map (fun e => e.2.CertificateAuthorityData) = [cert])
        ∨ (∃ decoded offset err,
          Base64.DecodeString masterAuth.ClusterCaCertificate = (decoded, some offset)
          ∧ synthesize conf cluster = .returned (.error err)
          ∧ err.Unwrap = some (.corruptInput offset)))
    ∧ ((GetContainerClusterAuth env conf clusterName).outcome = .panicked
        ↔ cluster.MasterAuth = none)
    ∧ (cluster.MasterAuth = none →
        GetContainerClusterAuth env conf clusterName =
          ⟨[Call.NewClusterManagerClient conf.Context,
            Call.GetCluster conf.Context
              ⟨"projects/" ++ conf.Project ++ "/locations/" ++ conf.Region ++ "/clusters/"
                ++ clusterName⟩], .panicked⟩) := by
  have key : ∀ masterAuth, cluster.MasterAuth = some masterAuth →
      (∃ cert config,
          Base64.DecodeString masterAuth.ClusterCaCertificate = (cert, none)
          ∧ synthesize conf cluster = .returned (.ok config)
          ∧ config.Clusters.entries.map (fun e => e.2.CertificateAuthorityData) = [cert])
        ∨ (∃ decoded offset err,
          Base64.DecodeString masterAuth.ClusterCaCertificate = (decoded, some offset)
          ∧ synthesize conf cluster = .returned (.error err)
          ∧ err.Unwrap = some (.corruptInput offset)) := by
    intro masterAuth hMA
    rcases hD : Base64.DecodeString masterAuth.ClusterCaCertificate with ⟨bytes, _ | offset⟩
    · refine Or.inl ⟨bytes, _, rfl, synthesize_valid conf cluster masterAuth bytes hMA hD, ?_⟩
      simp
    · exact Or.inr ⟨bytes, offset, _, rfl,
        synthesize_invalid conf cluster masterAuth bytes offset hMA hD, rfl⟩
  refine ⟨?_, key, ?_, ?_⟩
  · constructor
    · intro hP
      cases hMA : cluster.MasterAuth with
      | none => rfl
      | some masterAuth =>
        rcases key masterAuth hMA with ⟨_, _, _, h, _⟩ | ⟨_, _, _, _, h, _⟩ <;>
          rw [hP] at h <;> cases h
    · intro hMA
      simp only [synthesize, hMA]
  · constructor
    · intro hP
      cases hMA : cluster.MasterAuth with
      | none => rfl
      | some masterAuth =>
        rcases hD : Base64.DecodeString masterAuth.ClusterCaCertificate with ⟨bytes, _ | offset⟩
        · obtain ⟨handle, h⟩ := outcome_valid env conf clusterName client cluster masterAuth
            bytes hNew hGet hMA hD
          rw [hP] at h; cases h
        · rw [run_invalid env conf clusterName client cluster masterAuth bytes offset hNew hGet
            hMA hD] at hP
          cases hP
    · intro hMA
      rw [run_nil_masterAuth env conf clusterName client cluster hNew hGet hMA]
  · exact run_nil_masterAuth env conf clusterName client cluster hNew hGet

/-- C10 at a descriptor without `MasterAuth`: the operation panics. -/
theorem C10_master_auth_unguarded_witness :
    GetContainerClusterAuth (healthyEnv (prod "10.0.0.1" none)) (acme "us-central1") "prod"
      = ⟨[Call.NewClusterManagerClient ⟨0⟩,
          Call.GetCluster ⟨0⟩ ⟨"projects/acme/locations/us-central1/clusters/prod"⟩],
          .panicked⟩ :=
  (C10_master_auth_unguarded (healthyEnv (prod "10.0.0.1" none)) (acme "us-central1") "prod"
    (fakeClient (some ⟨[prod "10.0.0.1" none], []⟩, none) (some (prod "10.0.0.1" none), none))
    (prod "10.0.0.1" none) rfl rfl).2.2.2 rfl

end Gke
